import Mathlib

/-!
Verification of the generate-then-execute pipeline of the dida-agent backend:
the sandboxed code executors (chat / cleaning / feature agents), the result
normalizer, the JSON response parser, the schema analyzer's per-column
statistics, and the deterministic ML-preparation engine.

Python floats are modelled as exact rationals plus explicit NaN/±Inf
constructors; numpy scalar wrappers are distinguished from plain Python
values by separate constructors.  Float-literal threshold comparisons
(`x / y < 0.05` etc.) are modelled by the equivalent cross-multiplied
natural-number comparisons; bridging lemmas relate them to the rational
division form.  Python string `split`/`strip` are re-implemented over
character lists (fuel-based, so the kernel can evaluate them).
-/

/-- A Python float: a finite value (exact rational), NaN, or a signed
infinity. -/
inductive FloatVal where
  | fin (q : ℚ)
  | nan
  | inf
  | ninf
deriving DecidableEq

/-- A Python value as it can appear as a cell of a dataframe or as a scalar
execution result.  `vnull` is Python `None`; the `np…` constructors are the
numpy scalar wrapper types (`np.integer`, `np.floating`, `np.bool_`), which
are distinct from the plain Python `int` / `float` / `bool` values. -/
inductive Value where
  | vnull
  | vint (n : Int)
  | vfloat (f : FloatVal)
  | vstr (s : String)
  | vbool (b : Bool)
  | npInt (n : Int)
  | npFloat (f : FloatVal)
  | npBool (b : Bool)
deriving DecidableEq

/-- Model of `pd.isna` on a scalar: true exactly for `None` and (plain or numpy)
float NaN.  Infinities are not "na". -/
def pdIsna : Value → Bool
  | .vnull => true
  | .vfloat .nan => true
  | .npFloat .nan => true
  | _ => false

/-- A value is non-finite numeric: NaN or an infinity (plain or numpy). -/
def isNonFinite : Value → Bool
  | .vfloat .nan => true
  | .vfloat .inf => true
  | .vfloat .ninf => true
  | .npFloat .nan => true
  | .npFloat .inf => true
  | .npFloat .ninf => true
  | _ => false

/-- A value is a plain (transport-safe) Python value, not a numpy scalar
wrapper. -/
def isPlainValue : Value → Bool
  | .npInt _ => false
  | .npFloat _ => false
  | .npBool _ => false
  | _ => true

/-- First-occurrence deduplication (auxiliary, carrying the set of already
seen elements). -/
def dedupFirstAux {α : Type} [DecidableEq α] : List α → List α → List α
  | [], _ => []
  | x :: xs, seen =>
    if x ∈ seen then dedupFirstAux xs seen else x :: dedupFirstAux xs (x :: seen)

/-- The distinct elements of a list, keeping first occurrences in order.
Used to model `Series.nunique` / `np.unique` cardinalities. -/
def dedupFirst {α : Type} [DecidableEq α] (l : List α) : List α :=
  dedupFirstAux l []

/-- Prefix test on character lists. -/
def charPre : List Char → List Char → Bool
  | [], _ => true
  | _ :: _, [] => false
  | a :: as, b :: bs => a == b && charPre as bs

/-- Fuel-based splitting of a character list on a non-empty separator,
mirroring Python `str.split(sep)`.  The fuel is at least `length + 1`, so the
fuel-exhausted branch is never reached on the intended calls. -/
def splitGo (sep : List Char) : Nat → List Char → List Char → List (List Char)
  | 0, rest, acc => [acc.reverse ++ rest]
  | _ + 1, [], acc => [acc.reverse]
  | n + 1, c :: cs, acc =>
    if !sep.isEmpty && charPre sep (c :: cs) then
      acc.reverse :: splitGo sep n ((c :: cs).drop sep.length) []
    else
      splitGo sep n cs (c :: acc)

/-- Python `s.split(sep)` for a non-empty separator `sep`. -/
def pySplit (s sep : String) : List String :=
  (splitGo sep.toList (s.toList.length + 1) s.toList []).map (fun l => String.mk l)

/-- Python substring test `needle in s` (equivalently: splitting on the
needle produces more than one piece). -/
def pyContains (s needle : String) : Bool :=
  (pySplit s needle).length > 1

/-- Python `s.strip()`: drop whitespace from both ends. -/
def pyStrip (s : String) : String :=
  String.mk (((s.toList.dropWhile Char.isWhitespace).reverse.dropWhile
    Char.isWhitespace).reverse)

/-- Lexicographic strict order on strings by Unicode code point (Python
string `<`). -/
def strLtCh : List Char → List Char → Bool
  | [], [] => false
  | [], _ :: _ => true
  | _ :: _, [] => false
  | a :: as, b :: bs =>
    if a.toNat < b.toNat then true
    else if b.toNat < a.toNat then false
    else strLtCh as bs

/-- Insertion of a string into a sorted list (ascending Python order). -/
def insertSortedStr (x : String) : List String → List String
  | [] => [x]
  | y :: ys => if strLtCh x.toList y.toList then x :: y :: ys else y :: insertSortedStr x ys

/-- Sort a list of strings ascending, as `np.unique` / `pd.get_dummies`
order their categories. -/
def sortStrings (l : List String) : List String := l.foldr insertSortedStr []

namespace ChatAgent

/-- An in-memory dataframe: named columns and a list of rows. -/
structure Table where
  cols : List String
  rows : List (List Value)
deriving DecidableEq

/-- The model-generated code executed by the sandboxed executors, as a
straight-line statement language over the execution environment's bindings:
in-place mutation of the `df` object, assignment to the `result` variable,
drawing a figure on the shared matplotlib surface, and raising an error.
Refuting a universally-quantified claim about "every generated code string"
needs only programs expressible in this fragment; each statement corresponds
to real Python the model can emit (`df.drop(df.index, inplace=True)`,
`result = …`, `plt.figure()`, `raise Exception(…)`). -/
inductive Stmt where
  | dropAllRows
  | setResult (v : Value)
  | draw
  | raiseError (msg : String)
deriving DecidableEq

/-- The mutable execution environment: the `df` object the code sees, the
`result` binding, and the number of open figures on the shared matplotlib
surface (`plt.get_fignums()`). -/
structure ExecEnv where
  df : Table
  result : Value
  figures : Nat
deriving DecidableEq

/-- Outcome of running code: normal completion, or an uncaught exception
carrying its message together with the environment at the raise point (the
`df` object's mutations up to that point persist). -/
inductive ExecOutcome where
  | ok (env : ExecEnv)
  | err (msg : String) (env : ExecEnv)
deriving DecidableEq

/-- Run a statement list in an environment.  `pltAvailable` records whether
`plt` is bound in the local environment (true for the chat agent, false for
the cleaning and feature agents, whose `local_env` has no `plt`, so drawing
raises a NameError there). -/
def runStmts (pltAvailable : Bool) : List Stmt → ExecEnv → ExecOutcome
  | [], env => .ok env
  | s :: rest, env =>
    match s with
    | .dropAllRows => runStmts pltAvailable rest { env with df := { env.df with rows := [] } }
    | .setResult v => runStmts pltAvailable rest { env with result := v }
    | .draw =>
        if pltAvailable then runStmts pltAvailable rest { env with figures := env.figures + 1 }
        else .err "name \x27plt\x27 is not defined" env
    | .raiseError m => .err m env

/-- Result of `ChatAgent.execute_code`: mirrors the returned dict
(`success`, `result`, `plot`, `error`), plus the state of the caller's `df`
object after the call (`dfAfter`: the chat agent binds the caller's
dataframe itself into `local_env`, so in-place mutations are visible to the
caller) and the state of the shared plotting surface after the call
(`figuresAfter`).  On the failure path the dict has no `result`/`plot`
keys; these are modelled as `vnull` / `false`. -/
structure ExecCodeResult where
  success : Bool
  result : Value
  plot : Bool
  error : Option String
  dfAfter : Table
  figuresAfter : Nat
deriving DecidableEq

/-- Embedding of `ChatAgent.execute_code`: run the code with `df` bound to the caller's
dataframe and `result` initialised to `None`; on success, if any figure is
open it is serialized as the plot payload and `plt.close('all')` clears the
surface; on an exception the error's string representation is returned and —
as in the source — the surface is not touched. -/
def execute_code (code : List Stmt) (df : Table) (figures0 : Nat) : ExecCodeResult :=
  match runStmts true code ⟨df, Value.vnull, figures0⟩ with
  | .ok env =>
    if 0 < env.figures then
      { success := true, result := env.result, plot := true, error := none,
        dfAfter := env.df, figuresAfter := 0 }
    else
      { success := true, result := env.result, plot := false, error := none,
        dfAfter := env.df, figuresAfter := env.figures }
  | .err m env =>
    { success := false, result := Value.vnull, plot := false, error := some m,
      dfAfter := env.df, figuresAfter := env.figures }

/-- Model of `df.replace([np.inf, -np.inf], np.nan)` on one cell. -/
def replaceInfWithNan : Value → Value
  | .vfloat .inf => .vfloat .nan
  | .vfloat .ninf => .vfloat .nan
  | .npFloat .inf => .npFloat .nan
  | .npFloat .ninf => .npFloat .nan
  | v => v

/-- The per-record na-check of `_process_request`: `None if pd.isna(v) else v`. -/
def normCell (v : Value) : Value := if pdIsna v then .vnull else v

/-- Normalization of a dataframe execution result for transport
(`_process_request`, dataframe branch): replace infinities with NaN, take
the first 20 rows, convert to row-records, and map every remaining na cell
to `None`. -/
def normalizeTableResult (t : Table) : List (List (String × Value)) :=
  let replaced := t.rows.map (fun row => row.map replaceInfWithNan)
  (replaced.take 20).map (fun row => (t.cols.zip row).map (fun p => (p.1, normCell p.2)))

/-- Normalization of a series execution result (`_process_request`, series
branch): replace infinities with NaN on the values, take the first 20
entries, and render each as an index/value pair with na values mapped to
`None`. -/
def normalizeSeriesResult (s : List (Value × Value)) : List (Value × Value) :=
  let replaced := s.map (fun p => (p.1, replaceInfWithNan p.2))
  (replaced.take 20).map (fun p => (p.1, if pdIsna p.2 then Value.vnull else p.2))

/-- Normalization of a scalar execution result (`_process_request`, scalar
branch): `None` for na values; `np.integer` / `np.floating` wrappers are
unwrapped via `.item()`; every other value is passed through unchanged. -/
def normalizeScalar (v : Value) : Value :=
  if pdIsna v then .vnull
  else
    match v with
    | .npInt n => .vint n
    | .npFloat f => .vfloat f
    | w => w

end ChatAgent

namespace CleaningAgent

/-- Result of `CleaningAgent.execute_cleaning`: the returned dict plus the
state of the caller's dataframe after the call.  `local_env` binds
`df.copy()`, so the generated code can never touch the caller's object:
`callerDf` is the (unchanged) input table. -/
structure CleaningResult where
  success : Bool
  cleanedDf : Option ChatAgent.Table
  error : Option String
  callerDf : ChatAgent.Table
deriving DecidableEq

/-- Embedding of `CleaningAgent.execute_cleaning` (execution part): run the generated
code against a copy of the dataframe (no `plt` binding); on success return
the mutated copy, on an exception return a failure dict with the error's
string representation. -/
def execute_cleaning (code : List ChatAgent.Stmt) (df : ChatAgent.Table) : CleaningResult :=
  match ChatAgent.runStmts false code ⟨df, Value.vnull, 0⟩ with
  | .ok env => { success := true, cleanedDf := some env.df, error := none, callerDf := df }
  | .err m _ => { success := false, cleanedDf := none, error := some m, callerDf := df }

end CleaningAgent

namespace FeatureAgent

/-- Result of `FeatureAgent.execute_feature_engineering`: as for the
cleaning agent, the code runs against `df.copy()`, so `callerDf` is the
unchanged input table. -/
structure FeatureResult where
  success : Bool
  engineeredDf : Option ChatAgent.Table
  error : Option String
  callerDf : ChatAgent.Table
deriving DecidableEq

/-- Embedding of `FeatureAgent.execute_feature_engineering` (execution part): identical
execution contract to the cleaning agent — a copy of the dataframe, no
`plt` binding, structured failure on exception. -/
def execute_feature_engineering (code : List ChatAgent.Stmt) (df : ChatAgent.Table) :
    FeatureResult :=
  match ChatAgent.runStmts false code ⟨df, Value.vnull, 0⟩ with
  | .ok env => { success := true, engineeredDf := some env.df, error := none, callerDf := df }
  | .err m _ => { success := false, engineeredDf := none, error := some m, callerDf := df }

end FeatureAgent

namespace BaseAgent

/-- The candidate-extraction step of `BaseAgent.parse_json_response`:
if the raw response contains a fence explicitly marked as JSON
(`"```json" in response`), take the text after the first such marker up to
the next fence and strip it; otherwise, if it contains any fence, take the
content of the first fence; otherwise use the raw text itself. -/
def extract_candidate (response : String) : String :=
  if (pySplit response "```json").length > 1 then
    pyStrip ((pySplit ((pySplit response "```json").getD 1 "") "```").getD 0 "")
  else if (pySplit response "```").length > 1 then
    pyStrip ((pySplit ((pySplit response "```").getD 1 "") "```").getD 0 "")
  else response

/-- Embedding of `BaseAgent.parse_json_response`, parameterized by the behaviour of the
standard-library JSON decoder `json.loads` (argument `jsonLoads`, returning
a parsed structure or the `JSONDecodeError`'s message): extract the
candidate text, decode it, and on a decode error raise
`ValueError("Failed to parse JSON response: " + str(e))`.  The offending
text is only logged, not part of the raised error. -/
def parse_json_response {J : Type} (jsonLoads : String → Except String J)
    (response : String) : Except String J :=
  match jsonLoads (extract_candidate response) with
  | .ok j => .ok j
  | .error e => .error ("Failed to parse JSON response: " ++ e)

/-- The behaviour of Python `json.loads` on the concrete non-JSON input used
in the counterexample below: `json.loads("hello world")` raises
`JSONDecodeError("Expecting value: line 1 column 1 (char 0)")`. -/
def jsonLoadsOnPlainText : String → Except String Unit :=
  fun _ => .error "Expecting value: line 1 column 1 (char 0)"

end BaseAgent

namespace SchemaAnalyzer

/-- The `DataType` enum of the response schema. -/
inductive DataType where
  | numeric
  | datetime
  | boolean
  | categorical
  | text
  | unknown
deriving DecidableEq

/-- The pandas dtype of a column, as far as the dispatch predicates of
`_analyze_column_basic` distinguish it (`is_numeric_dtype`,
`is_datetime64_any_dtype`, `is_bool_dtype`, `is_categorical_dtype`,
`is_string_dtype` / `is_object_dtype`), modelled as disjoint tags. -/
inductive Dtype where
  | numericDt
  | datetimeDt
  | boolDt
  | categoricalDt
  | objectDt
  | stringDt
  | otherDt
deriving DecidableEq

/-- The type-dispatch chain of `_analyze_column_basic`.  `nunique` is the
count of distinct non-null values and `len` the row count.  The unique
ratio comparisons `nunique / len < 0.05` and `nunique / len < 0.5` are
modelled by the cross-multiplied comparisons `20 * nunique < len` and
`2 * nunique < len` (see the bridging lemmas `ratioLtFifth` and
`ratioLtHalf` below); the division is Python `int / int`, which raises
`ZeroDivisionError` on an empty column — hence the `Except`.  The
`is_categorical_dtype` disjunct short-circuits before the first division. -/
def detectTypeE (dt : Dtype) (nunique len : Nat) : Except String DataType :=
  if dt = .numericDt then .ok .numeric
  else if dt = .datetimeDt then .ok .datetime
  else if dt = .boolDt then .ok .boolean
  else if dt = .categoricalDt then .ok .categorical
  else if len = 0 then .error "division by zero"
  else if 20 * nunique < len then .ok .categorical
  else if dt = .stringDt ∨ dt = .objectDt then
    if 2 * nunique < len then .ok .categorical else .ok .text
  else .ok .unknown

/-- Modelled from the spec's words (refinement comparison for the
unique-ratio classification): "categorical if unique-ratio < 0.05, else
text if unique-ratio < 0.5, else categorical", with the same
cross-multiplied encoding of the thresholds. -/
def specC3Classify (nunique len : Nat) : DataType :=
  if 20 * nunique < len then .categorical
  else if 2 * nunique < len then .text
  else .categorical

/-- Model of `series.nunique()`: number of distinct non-null values. -/
def nuniqueCells (cells : List Value) : Nat :=
  (dedupFirst (cells.filter (fun c => !pdIsna c))).length

/-- The per-column statistics dict of `_analyze_column_basic`.  The
`round(…, 2)` applied to the null percentage in the source is elided (no
claim concerns the rounded digits).  `nullPercentage` is
`(null_count / len(series)) * 100`, where `null_count` is a numpy integer,
so on an empty column the numpy scalar division yields NaN (with a runtime
warning) instead of raising. -/
structure ColumnStats where
  dataType : DataType
  nullCount : Nat
  nullPercentage : FloatVal
  uniqueCount : Nat
  sampleValues : List Value
  isPrimaryKey : Bool
  totalRows : Nat
deriving DecidableEq

/-- Embedding of `SchemaAnalyzerAgent._analyze_column_basic` on one column (dtype plus
cells): detect the data type (which can raise a `ZeroDivisionError`), then
compute sample values, null statistics, unique count and the primary-key
flag. -/
def analyzeColumnBasic (dt : Dtype) (cells : List Value) : Except String ColumnStats :=
  match detectTypeE dt (nuniqueCells cells) cells.length with
  | .error e => .error e
  | .ok ty =>
    let nullCount := (cells.filter (fun c => pdIsna c)).length
    .ok
      { dataType := ty
        nullCount := nullCount
        nullPercentage :=
          if cells.length = 0 then FloatVal.nan
          else FloatVal.fin ((nullCount : ℚ) / (cells.length : ℚ) * 100)
        uniqueCount := nuniqueCells cells
        sampleValues := (cells.filter (fun c => !pdIsna c)).take 5
        isPrimaryKey :=
          decide (nuniqueCells cells = cells.length) &&
          decide (nullCount = 0) && decide (0 < cells.length)
        totalRows := cells.length }

/-- Projection used to state claims about the detected type without forcing
evaluation of the rational null-percentage field. -/
def okDataType : Except String ColumnStats → Option DataType
  | .ok st => some st.dataType
  | .error _ => none

/-- Projection of the null percentage of a successful analysis. -/
def okNullPercentage : Except String ColumnStats → Option FloatVal
  | .ok st => some st.nullPercentage
  | .error _ => none

/-- Whether the analysis returned a result at all. -/
def okSucceeded : Except String ColumnStats → Bool
  | .ok _ => true
  | .error _ => false

end SchemaAnalyzer

namespace MLPrepAgent

/-- A value of the ML-preparation pipeline (a cell of `X` or `y`): numeric
(exact rational) or a string category. -/
inductive MlVal where
  | qv (x : ℚ)
  | sv (s : String)
deriving DecidableEq

/-- A column of the ML-preparation pipeline: numeric dtype
(`select_dtypes(include=[np.number])`) or non-numeric (object) dtype. -/
inductive MlCol where
  | numCol (vals : List ℚ)
  | objCol (vals : List String)
deriving DecidableEq

/-- Whether a column is non-numeric (categorical for the encoder). -/
def isObjCol : MlCol → Bool
  | .objCol _ => true
  | .numCol _ => false

/-- The values of a column as `MlVal`s. -/
def colVals : MlCol → List MlVal
  | .numCol vs => vs.map MlVal.qv
  | .objCol vs => vs.map MlVal.sv

/-- Model of `Series.nunique` on a string column. -/
def nuniqueStr (vals : List String) : Nat := (dedupFirst vals).length

/-- Embedding of `MLPrepAgent._detect_problem_type`: numeric target with more than 20
distinct values is regression; any other target is classification. -/
def detect_problem_type (target : MlCol) : String :=
  match target with
  | .numCol vs => if 20 < (dedupFirst vs).length then "regression" else "classification"
  | .objCol _ => "classification"

/-- The strategy dispatch of `_encode_categorical`: under `auto`, one-hot
for unique count at most 10; under `onehot`, always; under any other
strategy (`label`), never. -/
def use_onehot (strategy : String) (uniqueCount : Nat) : Bool :=
  if strategy = "auto" then uniqueCount ≤ 10
  else if strategy = "onehot" then true
  else false

/-- The column names produced by
`pd.get_dummies(df[col], prefix=col, drop_first=True)`: one indicator per
category in sorted order, with the first category dropped. -/
def dummyColumnNames (col : String) (vals : List String) : List String :=
  ((sortStrings (dedupFirst vals)).drop 1).map (fun cat => col ++ "_" ++ cat)

/-- The indicator columns produced by
`pd.get_dummies(df[col], prefix=col, drop_first=True)` (0/1 values). -/
def dummyCols (col : String) (vals : List String) : List (String × MlCol) :=
  ((sortStrings (dedupFirst vals)).drop 1).map
    (fun cat => (col ++ "_" ++ cat, MlCol.numCol (vals.map (fun v => if v = cat then 1 else 0))))

/-- Model of `LabelEncoder().fit_transform(values)`: classes are the sorted distinct
values; each value maps to the index of its class. -/
def labelEncodeVals (vals : List String) : List Nat :=
  let classes := sortStrings (dedupFirst vals)
  vals.map (fun v => classes.indexOf v)

/-- One iteration of the `for col in categorical_cols` loop of
`_encode_categorical`, acting on the accumulated
`(df_encoded, encoded_cols)` state.  The unique count, dummy columns and
label codes are computed from the original column values (`df[col]`), as in
the source; one-hot drops the column from `df_encoded` and appends the
dummies (`pd.concat(axis=1)` appends on the right), label encoding replaces
the column in place. -/
def encStep (strategy : String) (acc : List (String × MlCol) × List String)
    (p : String × MlCol) : List (String × MlCol) × List String :=
  match p.2 with
  | .objCol vals =>
    let u := nuniqueStr vals
    if use_onehot strategy u && decide (u ≤ 10) then
      ((acc.1.filter (fun q => q.1 ≠ p.1)) ++ dummyCols p.1 vals,
        acc.2 ++ dummyColumnNames p.1 vals)
    else
      (acc.1.map (fun q =>
          if q.1 = p.1 then (q.1, MlCol.numCol ((labelEncodeVals vals).map (fun n => (n : ℚ))))
          else q),
        acc.2 ++ [p.1])
  | .numCol _ => acc

/-- Embedding of `MLPrepAgent._encode_categorical`: loop over the non-numeric columns,
encoding each and collecting the produced column names. -/
def encode_categorical (strategy : String) (df : List (String × MlCol)) :
    List (String × MlCol) × List String :=
  (df.filter (fun p => isObjCol p.2)).foldl (encStep strategy) (df, [])

/-- The per-column encoded-column-name contribution, phrased with the
claim's condition: the dummy names when the strategy is `auto` or `onehot`
and the unique count is at most 10, the column's own name (label encoding)
otherwise.  Numeric columns contribute nothing. -/
def contributionNames (strategy : String) (p : String × MlCol) : List String :=
  match p.2 with
  | .objCol vals =>
    if (strategy = "auto" ∨ strategy = "onehot") ∧ nuniqueStr vals ≤ 10 then
      dummyColumnNames p.1 vals
    else [p.1]
  | .numCol _ => []

/-- Embedding of `MLPrepAgent._scale_numerical`, with the sklearn scaler's per-column
transform abstracted as `scaleFn`: every numeric column is transformed,
non-numeric columns are untouched, and the names of the numeric columns are
returned. -/
def scale_numerical (scaleFn : List ℚ → List ℚ) (df : List (String × MlCol)) :
    List (String × MlCol) × List String :=
  ((df.map (fun p =>
      match p.2 with
      | .numCol vs => (p.1, MlCol.numCol (scaleFn vs))
      | c => (p.1, c))),
    (df.filter (fun p => !isObjCol p.2)).map (fun p => p.1))

/-- The class histogram `y_train.value_counts()` (as a list of
value/count pairs; the source additionally converts the keys with `str` for
JSON serialization and orders by descending count — neither affects any
claim, which only use the multiset of counts). -/
def valueCounts (ys : List MlVal) : List (MlVal × Nat) :=
  (dedupFirst ys).map (fun v => (v, ys.count v))

/-- The imbalance warning appended by `prepare_for_ml`.  The f-string's
formatted numeric interpolation (`{max_class/min_class:.1f}`) is elided; no
claim concerns the message text. -/
def imbalanceMessage : String :=
  "Class imbalance detected. Consider using SMOTE or class weights."

/-- The class-imbalance check of `prepare_for_ml`: starting from the
model-supplied warnings, when the problem is classification and the class
distribution is non-empty, append the imbalance warning exactly when
`max_class / min_class > 3`; the float comparison is modelled by the
cross-multiplied `3 * min < max` (see the bridging lemma
`imbalanceOverThree` below). -/
def applyImbalanceCheck (problem_type : String) (dist : List (MlVal × Nat))
    (warnings : List String) : List String :=
  if problem_type = "classification" && !dist.isEmpty then
    let counts := dist.map (fun p => p.2)
    let maxClass := counts.max?.getD 0
    let minClass := counts.min?.getD 0
    if 3 * minClass < maxClass then warnings ++ [imbalanceMessage] else warnings
  else warnings

/-- The advisory output of the language-model call (a parsed
`_process_request` response), treated as an opaque external input to the
engine. -/
structure AdvisoryResponse where
  recommendedAlgorithms : List String
  modelWarnings : List String
  bestPractices : List String
deriving DecidableEq

/-- The outcome of `sklearn.model_selection.train_test_split`, abstracted:
the library call is an external collaborator, so the engine is parameterized
over it. -/
structure SplitOut where
  XTrain : List (String × MlCol)
  XTest : List (String × MlCol)
  yTrain : List MlVal
  yTest : List MlVal
deriving DecidableEq

/-- The success payload of `prepare_for_ml`. -/
structure PrepPayload where
  XTrain : List (String × MlCol)
  XTest : List (String × MlCol)
  yTrain : List MlVal
  yTest : List MlVal
  problemType : String
  encodedColumns : List String
  scaledColumns : List String
  targetEncoded : Bool
  classDistribution : Option (List (MlVal × Nat))
  recommendedAlgorithms : List String
  warnings : List String
  bestPractices : List String
deriving DecidableEq

/-- The result of `prepare_for_ml`: either the success payload, or the
structured failure produced by the surrounding `try/except`.  `llmCalled`
records whether the language-model call (`self._process_request`) was
reached. -/
structure PrepResult where
  success : Bool
  error : Option String
  llmCalled : Bool
  payload : Option PrepPayload
deriving DecidableEq

/-- Embedding of `MLPrepAgent.prepare_for_ml`, parameterized over the two external
collaborators: the advisory language-model call (`advisory`, with
`llmCalled` recording that the call was reached) and
`sklearn.model_selection.train_test_split` (`splitFn`, receiving the
prepared `X`, `y` and whether stratification by the target applies), plus
the sklearn scaler transform (`scaleFn`).  The target-column validation
raises `ValueError` before anything else; the `except` converts it to the
structured failure, so no model call is attempted and no split is
produced.  The class distribution is computed from the train partition, and
the imbalance warning is appended to the model-supplied warnings. -/
def prepare_for_ml (advisory : AdvisoryResponse)
    (splitFn : List (String × MlCol) → List MlVal → Bool → SplitOut)
    (scaleFn : List ℚ → List ℚ)
    (df : List (String × MlCol)) (target_column : String)
    (scaling_strategy encoding_strategy : String) : PrepResult :=
  match df.lookup target_column with
  | none =>
    { success := false
      error := some ("Target column \x27" ++ target_column ++ "\x27 not found in dataset")
      llmCalled := false
      payload := none }
  | some target =>
    let problem_type := detect_problem_type target
    let X := df.filter (fun p => p.1 ≠ target_column)
    let enc := encode_categorical encoding_strategy X
    let yEnc : List MlVal × Bool :=
      match target with
      | .objCol vs =>
        if problem_type = "classification" then
          ((labelEncodeVals vs).map (fun n => MlVal.qv (n : ℚ)), true)
        else (vs.map MlVal.sv, false)
      | .numCol vs => (vs.map MlVal.qv, false)
    let scaled := scale_numerical scaleFn enc.1
    let split := splitFn scaled.1 yEnc.1 (problem_type = "classification")
    let classDistribution :=
      if problem_type = "classification" then some (valueCounts split.yTrain) else none
    let warnings :=
      match classDistribution with
      | some dist => applyImbalanceCheck problem_type dist advisory.modelWarnings
      | none => advisory.modelWarnings
    { success := true
      error := none
      llmCalled := true
      payload := some
        { XTrain := split.XTrain
          XTest := split.XTest
          yTrain := split.yTrain
          yTest := split.yTest
          problemType := problem_type
          encodedColumns := enc.2
          scaledColumns := scaled.2
          targetEncoded := yEnc.2
          classDistribution := classDistribution
          recommendedAlgorithms := advisory.recommendedAlgorithms
          warnings := warnings
          bestPractices := advisory.bestPractices } }

/-- Projection of the warnings of a successful preparation. -/
def payloadWarnings : PrepResult → Option (List String)
  | { payload := some p, .. } => some p.warnings
  | _ => none

/-- Projection of the class distribution of a successful preparation. -/
def payloadClassDistribution : PrepResult → Option (Option (List (MlVal × Nat)))
  | { payload := some p, .. } => some p.classDistribution
  | _ => none

end MLPrepAgent

section Bridging

/-- Bridging lemma: for a positive row count, the float comparison
`nunique / len < 0.05` agrees with the cross-multiplied form used in the
embedding. -/
theorem ratioLtFifth (u l : Nat) (h : 0 < l) :
    ((u : ℚ) / (l : ℚ) < 1 / 20) ↔ 20 * u < l := by
  have hl : (0 : ℚ) < (l : ℚ) := by exact_mod_cast h
  rw [div_lt_div_iff hl (by norm_num : (0 : ℚ) < 20)]
  constructor
  · intro hq
    have : (20 * u : ℚ) < l := by linarith
    exact_mod_cast this
  · intro hn
    have : ((20 * u : Nat) : ℚ) < (l : ℚ) := by exact_mod_cast hn
    push_cast at this
    linarith

/-- Bridging lemma: for a positive row count, the float comparison
`nunique / len < 0.5` agrees with the cross-multiplied form used in the
embedding. -/
theorem ratioLtHalf (u l : Nat) (h : 0 < l) :
    ((u : ℚ) / (l : ℚ) < 1 / 2) ↔ 2 * u < l := by
  have hl : (0 : ℚ) < (l : ℚ) := by exact_mod_cast h
  rw [div_lt_div_iff hl (by norm_num : (0 : ℚ) < 2)]
  constructor
  · intro hq
    have : (2 * u : ℚ) < l := by linarith
    exact_mod_cast this
  · intro hn
    have : ((2 * u : Nat) : ℚ) < (l : ℚ) := by exact_mod_cast hn
    push_cast at this
    linarith

/-- Bridging lemma: for a positive minority count, the float comparison
`max_class / min_class > 3` agrees with the cross-multiplied form used in
the embedding. -/
theorem ratioGtThree (maxC minC : Nat) (h : 0 < minC) :
    ((3 : ℚ) < (maxC : ℚ) / (minC : ℚ)) ↔ 3 * minC < maxC := by
  have hm : (0 : ℚ) < (minC : ℚ) := by exact_mod_cast h
  rw [lt_div_iff hm]
  constructor
  · intro hq
    have : (3 * minC : ℚ) < maxC := by linarith
    exact_mod_cast this
  · intro hn
    have : ((3 * minC : Nat) : ℚ) < (maxC : ℚ) := by exact_mod_cast hn
    push_cast at this
    linarith

end Bridging

section CellLemmas

/-- The composition of the infinity replacement and the per-record na-check
maps a cell to `None` exactly when it is non-finite or na, and otherwise
leaves it unchanged. -/
theorem normCell_replaceInf (v : Value) :
    ChatAgent.normCell (ChatAgent.replaceInfWithNan v) =
      if isNonFinite v || pdIsna v then Value.vnull else v := by
  cases v with
  | vnull => rfl
  | vint n => rfl
  | vfloat f => cases f <;> rfl
  | vstr s => rfl
  | vbool b => rfl
  | npInt n => rfl
  | npFloat f => cases f <;> rfl
  | npBool b => rfl

/-- A cell that has passed through infinity replacement and the na-check is
never non-finite. -/
theorem normCell_not_nonFinite (v : Value) :
    isNonFinite (ChatAgent.normCell (ChatAgent.replaceInfWithNan v)) = false := by
  cases v with
  | vnull => rfl
  | vint n => rfl
  | vfloat f => cases f <;> rfl
  | vstr s => rfl
  | vbool b => rfl
  | npInt n => rfl
  | npFloat f => cases f <;> rfl
  | npBool b => rfl

end CellLemmas

/-- C1: for every program of the statement language and every input table,
a raising execution yields a structured failure result carrying the raise's
message for all three executors, and the caller's table is unchanged for
the Cleaning and Feature agents (which execute against `df.copy()`); the
Chat agent's failure result equally carries the message, but its `df`
binding aliases the caller's dataframe, so the caller observes the
environment's table at the raise point (`env.df`) — in-place mutations
persist (amended: the byte-for-byte preservation holds for Cleaning and
Feature, not for Chat). -/
theorem c1_failure_isolation (code : List ChatAgent.Stmt) (df : ChatAgent.Table)
    (figures0 : Nat) (m : String) (env : ChatAgent.ExecEnv) :
    (ChatAgent.runStmts false code ⟨df, Value.vnull, 0⟩ = .err m env →
      CleaningAgent.execute_cleaning code df =
        { success := false, cleanedDf := none, error := some m, callerDf := df } ∧
      FeatureAgent.execute_feature_engineering code df =
        { success := false, engineeredDf := none, error := some m, callerDf := df })
    ∧ (ChatAgent.runStmts true code ⟨df, Value.vnull, figures0⟩ = .err m env →
      ChatAgent.execute_code code df figures0 =
        { success := false, result := Value.vnull, plot := false, error := some m,
          dfAfter := env.df, figuresAfter := env.figures }) := by
  constructor
  · intro h
    constructor
    · simp [CleaningAgent.execute_cleaning, h]
    · simp [FeatureAgent.execute_feature_engineering, h]
  · intro h
    simp [ChatAgent.execute_code, h]

/-- C1 witness: a concrete raising program, run by all three executors. -/
theorem c1_failure_isolation_witness :
    (CleaningAgent.execute_cleaning [ChatAgent.Stmt.raiseError "oops"] ⟨["c"], [[Value.vint 1]]⟩ =
      { success := false, cleanedDf := none, error := some "oops",
        callerDf := ⟨["c"], [[Value.vint 1]]⟩ } ∧
    FeatureAgent.execute_feature_engineering [ChatAgent.Stmt.raiseError "oops"]
        ⟨["c"], [[Value.vint 1]]⟩ =
      { success := false, engineeredDf := none, error := some "oops",
        callerDf := ⟨["c"], [[Value.vint 1]]⟩ }) ∧
    ChatAgent.execute_code [ChatAgent.Stmt.raiseError "oops"] ⟨["c"], [[Value.vint 1]]⟩ 0 =
      { success := false, result := Value.vnull, plot := false, error := some "oops",
        dfAfter := ⟨["c"], [[Value.vint 1]]⟩, figuresAfter := 0 } :=
  ⟨(c1_failure_isolation [ChatAgent.Stmt.raiseError "oops"] ⟨["c"], [[Value.vint 1]]⟩ 0 "oops"
      ⟨⟨["c"], [[Value.vint 1]]⟩, Value.vnull, 0⟩).1 (by decide),
   (c1_failure_isolation [ChatAgent.Stmt.raiseError "oops"] ⟨["c"], [[Value.vint 1]]⟩ 0 "oops"
      ⟨⟨["c"], [[Value.vint 1]]⟩, Value.vnull, 0⟩).2 (by decide)⟩

/-- C1 counterexample: a chat-agent program that mutates the caller's
dataframe in place and then raises; the failure result carries the error
text, but the caller's table is changed — refuting byte-for-byte
preservation for the Chat agent. -/
theorem c1_chat_mutation_counterexample :
    (ChatAgent.execute_code [ChatAgent.Stmt.dropAllRows, ChatAgent.Stmt.raiseError "boom"]
        ⟨["a"], [[Value.vint 1]]⟩ 0).success = false
    ∧ (ChatAgent.execute_code [ChatAgent.Stmt.dropAllRows, ChatAgent.Stmt.raiseError "boom"]
        ⟨["a"], [[Value.vint 1]]⟩ 0).error = some "boom"
    ∧ (ChatAgent.execute_code [ChatAgent.Stmt.dropAllRows, ChatAgent.Stmt.raiseError "boom"]
        ⟨["a"], [[Value.vint 1]]⟩ 0).dfAfter ≠ ⟨["a"], [[Value.vint 1]]⟩ := by
  decide

/-- C4: the shared plotting surface is cleared on every successful
invocation of the chat executor (after capturing any figure as the plot
payload), but a raising invocation returns with the surface in whatever
state the code left it — figures drawn before the exception are not
cleared (amended: clearing happens only on the success path). -/
theorem c4_surface_clearing (code : List ChatAgent.Stmt) (df : ChatAgent.Table)
    (figures0 : Nat) :
    (∀ env, ChatAgent.runStmts true code ⟨df, Value.vnull, figures0⟩ = .ok env →
      (ChatAgent.execute_code code df figures0).figuresAfter = 0)
    ∧ (∀ m env, ChatAgent.runStmts true code ⟨df, Value.vnull, figures0⟩ = .err m env →
      (ChatAgent.execute_code code df figures0).figuresAfter = env.figures) := by
  constructor
  · intro env h
    by_cases hf : 0 < env.figures
    · simp [ChatAgent.execute_code, h, hf]
    · simp [ChatAgent.execute_code, h, hf]
      omega
  · intro m env h
    simp [ChatAgent.execute_code, h]

/-- C4 witness: a successful drawing invocation clears the surface. -/
theorem c4_surface_clearing_witness :
    (ChatAgent.execute_code [ChatAgent.Stmt.draw] ⟨["a"], []⟩ 0).figuresAfter = 0
    ∧ (ChatAgent.execute_code [ChatAgent.Stmt.draw, ChatAgent.Stmt.raiseError "e"]
        ⟨["a"], []⟩ 0).figuresAfter =
      (ChatAgent.ExecEnv.mk ⟨["a"], []⟩ Value.vnull 1).figures :=
  ⟨(c4_surface_clearing [ChatAgent.Stmt.draw] ⟨["a"], []⟩ 0).1
      ⟨⟨["a"], []⟩, Value.vnull, 1⟩ (by decide),
   (c4_surface_clearing [ChatAgent.Stmt.draw, ChatAgent.Stmt.raiseError "e"] ⟨["a"], []⟩ 0).2
      "e" ⟨⟨["a"], []⟩, Value.vnull, 1⟩ (by decide)⟩

/-- C4 counterexample: an invocation that draws a figure and then raises
returns with the figure still on the shared surface (not cleared), and a
later invocation that draws nothing captures the leaked figure as its own
plot — refuting clearing on every invocation. -/
theorem c4_leak_counterexample :
    (ChatAgent.execute_code [ChatAgent.Stmt.draw, ChatAgent.Stmt.raiseError "plot failed"]
        ⟨["a"], []⟩ 0).figuresAfter = 1
    ∧ (ChatAgent.execute_code [ChatAgent.Stmt.setResult (Value.vint 5)] ⟨["a"], []⟩ 1).plot
        = true := by
  decide

/-- C2: normalization of a successfully executed table result yields the
row-records of at most the first 20 rows in order, with every non-finite or
na cell mapped to the null marker and every other cell unchanged, so the
normalized output contains no infinity or NaN; the same capping and null
substitution applies to series results rendered as index/value pairs. -/
theorem c2_result_normalization (t : ChatAgent.Table) (s : List (Value × Value)) :
    (ChatAgent.normalizeTableResult t).length = min t.rows.length 20
    ∧ ChatAgent.normalizeTableResult t =
        (t.rows.take 20).map (fun row => (t.cols.zip row).map
          (fun p => (p.1, if isNonFinite p.2 || pdIsna p.2 then Value.vnull else p.2)))
    ∧ (∀ rec ∈ ChatAgent.normalizeTableResult t, ∀ p ∈ rec, isNonFinite p.2 = false)
    ∧ (ChatAgent.normalizeSeriesResult s).length = min s.length 20
    ∧ ChatAgent.normalizeSeriesResult s =
        (s.take 20).map
          (fun p => (p.1, if isNonFinite p.2 || pdIsna p.2 then Value.vnull else p.2))
    ∧ (∀ p ∈ ChatAgent.normalizeSeriesResult s, isNonFinite p.2 = false) := by
  have hrow : ∀ row : List Value,
      (t.cols.zip (row.map ChatAgent.replaceInfWithNan)).map
          (fun p => (p.1, ChatAgent.normCell p.2)) =
        (t.cols.zip row).map
          (fun p => (p.1, if isNonFinite p.2 || pdIsna p.2 then Value.vnull else p.2)) := by
    intro row
    rw [List.zip_map_right, List.map_map]
    refine List.map_congr_left ?_
    intro p _
    simp only [Function.comp, Prod.map, id]
    rw [normCell_replaceInf]
  have htab : ChatAgent.normalizeTableResult t =
      (t.rows.take 20).map (fun row => (t.cols.zip row).map
        (fun p => (p.1, if isNonFinite p.2 || pdIsna p.2 then Value.vnull else p.2))) := by
    have h1 : ChatAgent.normalizeTableResult t =
        ((t.rows.map (fun row => row.map ChatAgent.replaceInfWithNan)).take 20).map
          (fun row => (t.cols.zip row).map (fun p => (p.1, ChatAgent.normCell p.2))) := rfl
    rw [h1, ← List.map_take, List.map_map]
    refine List.map_congr_left ?_
    intro row _
    simp only [Function.comp]
    exact hrow row
  have hser : ChatAgent.normalizeSeriesResult s =
      (s.take 20).map
        (fun p => (p.1, if isNonFinite p.2 || pdIsna p.2 then Value.vnull else p.2)) := by
    have h2 : ChatAgent.normalizeSeriesResult s =
        ((s.map (fun p => (p.1, ChatAgent.replaceInfWithNan p.2))).take 20).map
          (fun p => (p.1, if pdIsna p.2 then Value.vnull else p.2)) := rfl
    rw [h2, ← List.map_take, List.map_map]
    refine List.map_congr_left ?_
    intro p _
    simp only [Function.comp]
    rw [← normCell_replaceInf]
    rfl
  refine ⟨?_, htab, ?_, ?_, hser, ?_⟩
  · rw [htab]
    simp [List.length_take, Nat.min_comm]
  · intro rec hrec p hp
    rw [htab] at hrec
    obtain ⟨row, _, rfl⟩ := List.mem_map.1 hrec
    obtain ⟨q, _, rfl⟩ := List.mem_map.1 hp
    by_cases hc : (isNonFinite q.2 || pdIsna q.2) = true
    · simp only [hc, if_true]
      rfl
    · simp only [hc]
      simp only [Bool.or_eq_true, not_or, Bool.not_eq_true] at hc
      simp [hc.1]
  · rw [hser]
    simp [List.length_take, Nat.min_comm]
  · intro p hp
    rw [hser] at hp
    obtain ⟨q, _, rfl⟩ := List.mem_map.1 hp
    by_cases hc : (isNonFinite q.2 || pdIsna q.2) = true
    · simp only [hc, if_true]
      rfl
    · simp only [hc]
      simp only [Bool.or_eq_true, not_or, Bool.not_eq_true] at hc
      simp [hc.1]

/-- C2 witness: a concrete table with an infinity, a NaN and a missing cell
normalizes to null markers, and the cell picked from the output is finite. -/
theorem c2_result_normalization_witness :
    (ChatAgent.normalizeTableResult
        ⟨["x", "y"], [[Value.vfloat FloatVal.inf, Value.vfloat (FloatVal.fin 2)],
                      [Value.vfloat FloatVal.nan, Value.vnull]]⟩).length = min 2 20
    ∧ isNonFinite (((("x" : String), Value.vnull) : String × Value)).2 = false :=
  ⟨(c2_result_normalization
      ⟨["x", "y"], [[Value.vfloat FloatVal.inf, Value.vfloat (FloatVal.fin 2)],
                    [Value.vfloat FloatVal.nan, Value.vnull]]⟩ []).1,
   (c2_result_normalization
      ⟨["x", "y"], [[Value.vfloat FloatVal.inf, Value.vfloat (FloatVal.fin 2)],
                    [Value.vfloat FloatVal.nan, Value.vnull]]⟩ []).2.2.1
     [("x", Value.vnull), ("y", Value.vfloat (FloatVal.fin 2))] (by decide)
     ("x", Value.vnull) (by decide)⟩

/-- C9: scalar normalization yields the null marker for na values and
unwraps numpy integer and floating wrappers to plain values; a numpy
boolean scalar, however, passes through normalization unconverted (it
reaches the response only interpolated into the response text), so the
normalized value is plain except possibly a numpy boolean (amended from
"always plain"). -/
theorem c9_scalar_normalization (v : Value) :
    (pdIsna v = true → ChatAgent.normalizeScalar v = Value.vnull)
    ∧ (∀ n : Int, v = Value.npInt n → ChatAgent.normalizeScalar v = Value.vint n)
    ∧ (∀ f : FloatVal, v = Value.npFloat f → f ≠ FloatVal.nan →
        ChatAgent.normalizeScalar v = Value.vfloat f)
    ∧ (isPlainValue (ChatAgent.normalizeScalar v) = true
        ∨ ∃ b, v = Value.npBool b ∧ ChatAgent.normalizeScalar v = Value.npBool b) := by
  refine ⟨?_, ?_, ?_, ?_⟩
  · intro h
    simp [ChatAgent.normalizeScalar, h]
  · rintro n rfl
    rfl
  · rintro f rfl hf
    cases f with
    | fin q => rfl
    | nan => exact absurd rfl hf
    | inf => rfl
    | ninf => rfl
  · cases v with
    | vnull => exact Or.inl rfl
    | vint n => exact Or.inl rfl
    | vfloat f => cases f <;> exact Or.inl rfl
    | vstr s => exact Or.inl rfl
    | vbool b => exact Or.inl rfl
    | npInt n => exact Or.inl rfl
    | npFloat f => cases f <;> exact Or.inl rfl
    | npBool b => exact Or.inr ⟨b, rfl, rfl⟩

/-- C9 witness: normalization at a na value, a numpy integer and a numpy
float. -/
theorem c9_scalar_normalization_witness :
    ChatAgent.normalizeScalar Value.vnull = Value.vnull
    ∧ ChatAgent.normalizeScalar (Value.npInt 7) = Value.vint 7
    ∧ ChatAgent.normalizeScalar (Value.npFloat (FloatVal.fin 3)) =
        Value.vfloat (FloatVal.fin 3) :=
  ⟨(c9_scalar_normalization Value.vnull).1 rfl,
   (c9_scalar_normalization (Value.npInt 7)).2.1 7 rfl,
   (c9_scalar_normalization (Value.npFloat (FloatVal.fin 3))).2.2.1 (FloatVal.fin 3) rfl
     (by decide)⟩

/-- C9 counterexample: a numpy boolean scalar (e.g. the result of
`result = df["age"].mean() > 30`) survives normalization as a
numpy-library wrapper type, refuting "otherwise yields a plain numeric,
string, or boolean value". -/
theorem c9_npbool_counterexample :
    ChatAgent.normalizeScalar (Value.npBool true) = Value.npBool true
    ∧ isPlainValue (ChatAgent.normalizeScalar (Value.npBool true)) = false := by
  decide

/-- C5: the response parser extracts the candidate JSON text in order —
the content after the first fence explicitly marked as JSON, else the
content of the first code fence, else the raw text — and parses it; it
succeeds exactly when the JSON decoder succeeds on the candidate (no
partial recovery), and on a decode failure it raises an error carrying the
decoder's error message (amended: the raised error does not include the
offending text, which is only logged). -/
theorem c5_parse_json_response (J : Type) (jsonLoads : String → Except String J)
    (r : String) :
    ((pySplit r "```json").length ≤ 1 → (pySplit r "```").length ≤ 1 →
      BaseAgent.extract_candidate r = r)
    ∧ ((pySplit r "```json").length > 1 →
      BaseAgent.extract_candidate r =
        pyStrip ((pySplit ((pySplit r "```json").getD 1 "") "```").getD 0 ""))
    ∧ ((pySplit r "```json").length ≤ 1 → (pySplit r "```").length > 1 →
      BaseAgent.extract_candidate r =
        pyStrip ((pySplit ((pySplit r "```").getD 1 "") "```").getD 0 ""))
    ∧ (∀ j, jsonLoads (BaseAgent.extract_candidate r) = .ok j →
        BaseAgent.parse_json_response jsonLoads r = .ok j)
    ∧ (∀ e, jsonLoads (BaseAgent.extract_candidate r) = .error e →
        BaseAgent.parse_json_response jsonLoads r =
          .error ("Failed to parse JSON response: " ++ e)) := by
  refine ⟨?_, ?_, ?_, ?_, ?_⟩
  · intro h1 h2
    unfold BaseAgent.extract_candidate
    rw [if_neg (by omega), if_neg (by omega)]
  · intro h1
    unfold BaseAgent.extract_candidate
    rw [if_pos (by omega)]
  · intro h1 h2
    unfold BaseAgent.extract_candidate
    rw [if_neg (by omega), if_pos (by omega)]
  · intro j h
    unfold BaseAgent.parse_json_response
    rw [h]
  · intro e h
    unfold BaseAgent.parse_json_response
    rw [h]

/-- C5 witness: the parser at a response with an explicitly marked JSON
fence, at a fence-free response with a succeeding decoder, and at a
response with a failing decoder. -/
theorem c5_parse_json_response_witness :
    BaseAgent.extract_candidate "text ```json payload``` tail" = pyStrip " payload"
    ∧ BaseAgent.parse_json_response (fun s => (Except.ok s : Except String String))
        "no fence" = Except.ok (BaseAgent.extract_candidate "no fence")
    ∧ BaseAgent.extract_candidate "no fence" = "no fence"
    ∧ BaseAgent.parse_json_response
        (fun _ => (Except.error "Expecting value" : Except String Unit)) "bad" =
      Except.error ("Failed to parse JSON response: " ++ "Expecting value") :=
  ⟨((c5_parse_json_response Unit (fun _ => Except.error "x")
        "text ```json payload``` tail").2.1 (by decide)).trans (by decide),
   (c5_parse_json_response String (fun s => Except.ok s) "no fence").2.2.2.1 _ rfl,
   (c5_parse_json_response Unit (fun _ => Except.error "x") "no fence").1
     (by decide) (by decide),
   (c5_parse_json_response Unit (fun _ => Except.error "Expecting value") "bad").2.2.2.2
     "Expecting value" rfl⟩

/-- C5 counterexample: on a raw response that is not valid JSON, the raised
error carries only the decoder's message (`json.loads("hello world")`
raises `Expecting value: line 1 column 1 (char 0)`), and the offending text
does not occur in the error — refuting "fails with an error that includes
the offending text". -/
theorem c5_error_text_counterexample :
    BaseAgent.parse_json_response BaseAgent.jsonLoadsOnPlainText "hello world" =
      Except.error "Failed to parse JSON response: Expecting value: line 1 column 1 (char 0)"
    ∧ pyContains "Failed to parse JSON response: Expecting value: line 1 column 1 (char 0)"
        "hello world" = false := by
  constructor
  · rfl
  · decide

/-- C3: for string/object columns with a positive row count, the
unique-ratio classification is categorical when the ratio is below 0.5 and
text when it is at least 0.5 (the ratio-below-0.05 band is categorical as
the claim states, but the two upper bands are the reverse of the claimed
text/categorical assignment); non-string/object dtypes that pass the
numeric/datetime/boolean/categorical checks and the 0.05 band are
classified unknown. -/
theorem c3_unique_thresholds (dt : SchemaAnalyzer.Dtype) (nunique len : Nat)
    (h : 0 < len) :
    ((dt = SchemaAnalyzer.Dtype.objectDt ∨ dt = SchemaAnalyzer.Dtype.stringDt) →
      SchemaAnalyzer.detectTypeE dt nunique len =
        .ok (if (nunique : ℚ) / (len : ℚ) < 1 / 2 then SchemaAnalyzer.DataType.categorical
             else SchemaAnalyzer.DataType.text))
    ∧ ((nunique : ℚ) / (len : ℚ) < 1 / 20 →
      dt ≠ SchemaAnalyzer.Dtype.numericDt → dt ≠ SchemaAnalyzer.Dtype.datetimeDt →
      dt ≠ SchemaAnalyzer.Dtype.boolDt →
      SchemaAnalyzer.detectTypeE dt nunique len = .ok SchemaAnalyzer.DataType.categorical) := by
  constructor
  · intro hdt
    have hobj : dt ≠ SchemaAnalyzer.Dtype.numericDt ∧ dt ≠ SchemaAnalyzer.Dtype.datetimeDt ∧
        dt ≠ SchemaAnalyzer.Dtype.boolDt ∧ dt ≠ SchemaAnalyzer.Dtype.categoricalDt := by
      rcases hdt with rfl | rfl <;> exact ⟨by decide, by decide, by decide, by decide⟩
    unfold SchemaAnalyzer.detectTypeE
    rw [if_neg hobj.1, if_neg hobj.2.1, if_neg hobj.2.2.1, if_neg hobj.2.2.2,
      if_neg (by omega)]
    by_cases h05 : 20 * nunique < len
    · rw [if_pos h05]
      have : (nunique : ℚ) / (len : ℚ) < 1 / 2 := by
        rw [ratioLtHalf nunique len h]
        omega
      rw [if_pos this]
    · rw [if_neg h05, if_pos (hdt.elim Or.inr Or.inl)]
      by_cases h5 : 2 * nunique < len
      · rw [if_pos h5, if_pos ((ratioLtHalf nunique len h).2 h5)]
      · rw [if_neg h5, if_neg (fun hq => h5 ((ratioLtHalf nunique len h).1 hq))]
  · intro hq h1 h2 h3
    have h05 : 20 * nunique < len := (ratioLtFifth nunique len h).1 hq
    unfold SchemaAnalyzer.detectTypeE
    rw [if_neg h1, if_neg h2, if_neg h3]
    by_cases hc : dt = SchemaAnalyzer.Dtype.categoricalDt
    · rw [if_pos hc]
    · rw [if_neg hc, if_neg (by omega), if_pos h05]

/-- C3 witness: an object column with unique ratio 0.6 is text, one with
ratio 0.03 is categorical. -/
theorem c3_unique_thresholds_witness :
    SchemaAnalyzer.detectTypeE SchemaAnalyzer.Dtype.objectDt 6 10 =
      .ok SchemaAnalyzer.DataType.text
    ∧ SchemaAnalyzer.detectTypeE SchemaAnalyzer.Dtype.objectDt 3 100 =
      .ok SchemaAnalyzer.DataType.categorical := by
  constructor
  · have h := (c3_unique_thresholds SchemaAnalyzer.Dtype.objectDt 6 10 (by norm_num)).1
      (Or.inl rfl)
    rw [h]
    norm_num
  · exact (c3_unique_thresholds SchemaAnalyzer.Dtype.objectDt 3 100 (by norm_num)).2
      (by norm_num) (by decide) (by decide) (by decide)

/-- C3 counterexample: a 10-row object column with 3 distinct values
(unique ratio 0.3) is classified categorical by the code, while the claim's
thresholds classify it text — refuting the claimed band assignment. -/
theorem c3_band_counterexample :
    SchemaAnalyzer.okDataType (SchemaAnalyzer.analyzeColumnBasic SchemaAnalyzer.Dtype.objectDt
        [Value.vstr "a", Value.vstr "a", Value.vstr "a", Value.vstr "a", Value.vstr "b",
         Value.vstr "b", Value.vstr "b", Value.vstr "c", Value.vstr "c", Value.vstr "c"]) =
      some SchemaAnalyzer.DataType.categorical
    ∧ SchemaAnalyzer.specC3Classify 3 10 = SchemaAnalyzer.DataType.text
    ∧ SchemaAnalyzer.DataType.categorical ≠ SchemaAnalyzer.DataType.text := by
  refine ⟨?_, by decide, by decide⟩
  decide

/-- C10: per-column analysis of a zero-row table raises the Python-int
division error exactly for the dtypes whose dispatch reaches the
unique-ratio test (object, string and other non-basic dtypes); for
numeric, datetime, boolean or categorical dtypes the dispatch short-circuits
before any Python-int division, and the numpy-scalar null-percentage
division yields NaN instead of raising, so a result is returned (amended:
the failure is dtype-dependent, not universal for zero-row tables). -/
theorem c10_zero_row_analysis (dt : SchemaAnalyzer.Dtype) :
    ((dt = SchemaAnalyzer.Dtype.numericDt ∨ dt = SchemaAnalyzer.Dtype.datetimeDt ∨
      dt = SchemaAnalyzer.Dtype.boolDt ∨ dt = SchemaAnalyzer.Dtype.categoricalDt) →
      SchemaAnalyzer.okSucceeded (SchemaAnalyzer.analyzeColumnBasic dt []) = true
      ∧ SchemaAnalyzer.okNullPercentage (SchemaAnalyzer.analyzeColumnBasic dt []) =
          some FloatVal.nan)
    ∧ ((dt = SchemaAnalyzer.Dtype.objectDt ∨ dt = SchemaAnalyzer.Dtype.stringDt ∨
        dt = SchemaAnalyzer.Dtype.otherDt) →
      SchemaAnalyzer.analyzeColumnBasic dt [] = .error "division by zero") := by
  cases dt with
  | numericDt => exact ⟨fun _ => ⟨rfl, rfl⟩, fun h => by rcases h with h | h | h <;> simp at h⟩
  | datetimeDt => exact ⟨fun _ => ⟨rfl, rfl⟩, fun h => by rcases h with h | h | h <;> simp at h⟩
  | boolDt => exact ⟨fun _ => ⟨rfl, rfl⟩, fun h => by rcases h with h | h | h <;> simp at h⟩
  | categoricalDt =>
    exact ⟨fun _ => ⟨rfl, rfl⟩, fun h => by rcases h with h | h | h <;> simp at h⟩
  | objectDt =>
    exact ⟨fun h => by rcases h with h | h | h | h <;> simp at h, fun _ => rfl⟩
  | stringDt =>
    exact ⟨fun h => by rcases h with h | h | h | h <;> simp at h, fun _ => rfl⟩
  | otherDt =>
    exact ⟨fun h => by rcases h with h | h | h | h <;> simp at h, fun _ => rfl⟩

/-- C10 witness: the analysis of an empty object-dtype column fails with
the division error, while an empty numeric column returns a result with a
NaN null percentage. -/
theorem c10_zero_row_analysis_witness :
    SchemaAnalyzer.analyzeColumnBasic SchemaAnalyzer.Dtype.objectDt [] =
      .error "division by zero"
    ∧ SchemaAnalyzer.okNullPercentage
        (SchemaAnalyzer.analyzeColumnBasic SchemaAnalyzer.Dtype.numericDt []) =
      some FloatVal.nan :=
  ⟨(c10_zero_row_analysis SchemaAnalyzer.Dtype.objectDt).2 (Or.inl rfl),
   ((c10_zero_row_analysis SchemaAnalyzer.Dtype.numericDt).1 (Or.inl rfl)).2⟩

/-- C10 counterexample: a zero-row numeric column is analyzed without any
error — the analysis returns a result — refuting the claim that per-column
analysis of a zero-row table fails with a division error. -/
theorem c10_numeric_empty_counterexample :
    SchemaAnalyzer.okSucceeded
        (SchemaAnalyzer.analyzeColumnBasic SchemaAnalyzer.Dtype.numericDt []) = true
    ∧ SchemaAnalyzer.okDataType
        (SchemaAnalyzer.analyzeColumnBasic SchemaAnalyzer.Dtype.numericDt []) =
      some SchemaAnalyzer.DataType.numeric := by
  constructor
  · decide
  · decide

/-- The encoder's dispatch condition (`use_onehot` combined with the
one-hot branch's recheck of the unique count) agrees with the claim's
condition: one-hot exactly under the `auto` or `onehot` strategy with at
most 10 unique values. -/
theorem encStep_snd (strategy : String)
    (acc : List (String × MLPrepAgent.MlCol) × List String)
    (p : String × MLPrepAgent.MlCol) :
    (MLPrepAgent.encStep strategy acc p).2 =
      acc.2 ++ MLPrepAgent.contributionNames strategy p := by
  obtain ⟨name, col⟩ := p
  cases col with
  | numCol vs => simp [MLPrepAgent.encStep, MLPrepAgent.contributionNames]
  | objCol vals =>
    have hcond : (MLPrepAgent.use_onehot strategy (MLPrepAgent.nuniqueStr vals) &&
        decide (MLPrepAgent.nuniqueStr vals ≤ 10)) =
        decide ((strategy = "auto" ∨ strategy = "onehot") ∧
          MLPrepAgent.nuniqueStr vals ≤ 10) := by
      by_cases h1 : strategy = "auto"
      · by_cases h3 : MLPrepAgent.nuniqueStr vals ≤ 10 <;>
          simp [MLPrepAgent.use_onehot, h1, h3]
      · by_cases h2 : strategy = "onehot"
        · by_cases h3 : MLPrepAgent.nuniqueStr vals ≤ 10 <;>
            simp [MLPrepAgent.use_onehot, h1, h2, h3]
        · simp [MLPrepAgent.use_onehot, h1, h2]
    simp only [MLPrepAgent.encStep, MLPrepAgent.contributionNames]
    rw [hcond]
    by_cases hc : (strategy = "auto" ∨ strategy = "onehot") ∧
        MLPrepAgent.nuniqueStr vals ≤ 10
    · simp [hc]
    · simp [hc]

/-- The fold of the encoder over any column list accumulates exactly the
per-column contributions of the encoded-column names, in order. -/
theorem encode_foldl_snd (strategy : String) (l : List (String × MLPrepAgent.MlCol)) :
    ∀ acc : List (String × MLPrepAgent.MlCol) × List String,
      (l.foldl (MLPrepAgent.encStep strategy) acc).2 =
        acc.2 ++ l.flatMap (MLPrepAgent.contributionNames strategy) := by
  induction l with
  | nil => intro acc; simp
  | cons p rest ih =>
    intro acc
    rw [List.foldl_cons, ih, encStep_snd, List.flatMap_cons, List.append_assoc]

/-- C6: categorical encoding processes exactly the non-numeric feature
columns; each such column is one-hot encoded (producing the sorted dummy
columns with the first category dropped) exactly when the strategy is
`auto` or `onehot` and its unique-value count is at most 10, and is
integer label-encoded (contributing its own name) otherwise — so the chosen
encoding is fully determined by the strategy and the unique count. -/
theorem c6_categorical_encoding (strategy : String)
    (df : List (String × MLPrepAgent.MlCol)) :
    (MLPrepAgent.encode_categorical strategy df).2 =
      (df.filter (fun p => MLPrepAgent.isObjCol p.2)).flatMap
        (MLPrepAgent.contributionNames strategy)
    ∧ (∀ name vals,
        MLPrepAgent.contributionNames strategy (name, MLPrepAgent.MlCol.objCol vals) =
          if (strategy = "auto" ∨ strategy = "onehot") ∧ MLPrepAgent.nuniqueStr vals ≤ 10
          then MLPrepAgent.dummyColumnNames name vals
          else [name]) := by
  constructor
  · unfold MLPrepAgent.encode_categorical
    rw [encode_foldl_snd]
    simp
  · intro name vals
    rfl

/-- C7: starting from the model-supplied warnings, the engine appends the
imbalance warning exactly when the majority-to-minority count ratio of the
(non-empty) class histogram strictly exceeds 3; and every successful
classification run of `prepare_for_ml` computes its class distribution from
the train partition and derives its warnings by exactly this check applied
to the model-supplied warnings (local warning appended, never replacing). -/
theorem c7_imbalance_warning :
    (∀ (modelW : List String) (dist : List (MLPrepAgent.MlVal × Nat)),
      dist ≠ [] →
      0 < ((dist.map (fun p => p.2)).min?.getD 0) →
      MLPrepAgent.applyImbalanceCheck "classification" dist modelW =
        modelW ++
          (if (3 : ℚ) < (((dist.map (fun p => p.2)).max?.getD 0 : Nat) : ℚ) /
              (((dist.map (fun p => p.2)).min?.getD 0 : Nat) : ℚ)
           then [MLPrepAgent.imbalanceMessage] else []))
    ∧ (∀ (advisory : MLPrepAgent.AdvisoryResponse)
        (splitFn : List (String × MLPrepAgent.MlCol) → List MLPrepAgent.MlVal → Bool →
          MLPrepAgent.SplitOut)
        (scaleFn : List ℚ → List ℚ) (df : List (String × MLPrepAgent.MlCol))
        (target_column scal enc : String) (target : MLPrepAgent.MlCol),
        df.lookup target_column = some target →
        MLPrepAgent.detect_problem_type target = "classification" →
        ∃ dist,
          MLPrepAgent.payloadClassDistribution
              (MLPrepAgent.prepare_for_ml advisory splitFn scaleFn df target_column scal enc)
            = some (some dist)
          ∧ MLPrepAgent.payloadWarnings
              (MLPrepAgent.prepare_for_ml advisory splitFn scaleFn df target_column scal enc)
            = some (MLPrepAgent.applyImbalanceCheck "classification" dist
                advisory.modelWarnings)) := by
  constructor
  · intro modelW dist hne hmin
    have hne' : dist.isEmpty = false := by
      cases dist with
      | nil => exact absurd rfl hne
      | cons p rest => rfl
    simp only [MLPrepAgent.applyImbalanceCheck, hne', Bool.not_false, Bool.and_true,
      decide_True, if_true]
    by_cases hq : 3 * ((dist.map (fun p => p.2)).min?.getD 0) <
        ((dist.map (fun p => p.2)).max?.getD 0)
    · rw [if_pos hq, if_pos ((ratioGtThree _ _ hmin).2 hq)]
    · rw [if_neg hq, if_neg (fun h3 => hq ((ratioGtThree _ _ hmin).1 h3))]
      simp
  · intro advisory splitFn scaleFn df target_column scal enc target h hclass
    simp only [MLPrepAgent.prepare_for_ml, h, hclass, decide_True, if_true,
      MLPrepAgent.payloadClassDistribution, MLPrepAgent.payloadWarnings]
    exact ⟨_, rfl, rfl⟩

/-- C7 witness: the spec's two test histograms — counts 300/90 (over 3:1)
append the imbalance warning after the model warning; counts 300/120 (under
3:1) leave the warnings unchanged. -/
theorem c7_imbalance_warning_witness :
    MLPrepAgent.applyImbalanceCheck "classification"
        [(MLPrepAgent.MlVal.sv "A", 300), (MLPrepAgent.MlVal.sv "B", 90)] ["model warning"] =
      ["model warning", MLPrepAgent.imbalanceMessage]
    ∧ MLPrepAgent.applyImbalanceCheck "classification"
        [(MLPrepAgent.MlVal.sv "A", 300), (MLPrepAgent.MlVal.sv "B", 120)] ["model warning"] =
      ["model warning"] := by
  constructor
  · have h := c7_imbalance_warning.1 ["model warning"]
      [(MLPrepAgent.MlVal.sv "A", 300), (MLPrepAgent.MlVal.sv "B", 90)] (by decide) (by decide)
    rw [h]
    have hM : (([(MLPrepAgent.MlVal.sv "A", 300),
        (MLPrepAgent.MlVal.sv "B", 90)].map (fun p => p.2)).max?.getD 0) = 300 := by decide
    have hm : (([(MLPrepAgent.MlVal.sv "A", 300),
        (MLPrepAgent.MlVal.sv "B", 90)].map (fun p => p.2)).min?.getD 0) = 90 := by decide
    rw [hM, hm]
    norm_num
  · have h := c7_imbalance_warning.1 ["model warning"]
      [(MLPrepAgent.MlVal.sv "A", 300), (MLPrepAgent.MlVal.sv "B", 120)] (by decide) (by decide)
    rw [h]
    have hM : (([(MLPrepAgent.MlVal.sv "A", 300),
        (MLPrepAgent.MlVal.sv "B", 120)].map (fun p => p.2)).max?.getD 0) = 300 := by decide
    have hm : (([(MLPrepAgent.MlVal.sv "A", 300),
        (MLPrepAgent.MlVal.sv "B", 120)].map (fun p => p.2)).min?.getD 0) = 120 := by decide
    rw [hM, hm]
    norm_num

/-- A name absent from the key column of an association list is not found
by `lookup` (the membership test `target_column not in df.columns`). -/
theorem lookup_none_of_not_mem {β : Type} (l : List (String × β)) (a : String)
    (h : a ∉ l.map Prod.fst) : l.lookup a = none := by
  induction l with
  | nil => rfl
  | cons p rest ih =>
    obtain ⟨k, v⟩ := p
    simp only [List.map_cons, List.mem_cons, not_or] at h
    have hk : (a == k) = false := beq_eq_false_iff_ne.mpr h.1
    simp only [List.lookup, hk]
    exact ih h.2

/-- C8: when the target column is not present among the table's columns,
`prepare_for_ml` returns the local structured failure carrying the
`ValueError` message, the language-model call is never reached, and no
(partial) train/test split is produced. -/
theorem c8_missing_target (advisory : MLPrepAgent.AdvisoryResponse)
    (splitFn : List (String × MLPrepAgent.MlCol) → List MLPrepAgent.MlVal → Bool →
      MLPrepAgent.SplitOut)
    (scaleFn : List ℚ → List ℚ) (df : List (String × MLPrepAgent.MlCol))
    (target_column scal enc : String)
    (h : target_column ∉ df.map Prod.fst) :
    MLPrepAgent.prepare_for_ml advisory splitFn scaleFn df target_column scal enc =
      { success := false,
        error := some ("Target column \x27" ++ target_column ++ "\x27 not found in dataset"),
        llmCalled := false, payload := none } := by
  have hl := lookup_none_of_not_mem df target_column h
  simp [MLPrepAgent.prepare_for_ml, hl]

/-- C8 witness: a concrete table without the requested target column. -/
theorem c8_missing_target_witness :
    MLPrepAgent.prepare_for_ml ⟨[], [], []⟩ (fun X y _ => ⟨X, [], y, []⟩) (fun v => v)
        [("age", MLPrepAgent.MlCol.numCol [1, 2])] "label" "standard" "auto" =
      { success := false,
        error := some ("Target column \x27" ++ "label" ++ "\x27 not found in dataset"),
        llmCalled := false, payload := none } :=
  c8_missing_target ⟨[], [], []⟩ (fun X y _ => ⟨X, [], y, []⟩) (fun v => v)
    [("age", MLPrepAgent.MlCol.numCol [1, 2])] "label" "standard" "auto" (by decide)
